import Mathlib

/-!
Shallow embedding of `src/app.py` (Explania - automated EDA + insight
generator, a Streamlit app over pandas).

Modelling conventions:
* A pandas `DataFrame` is a `Dataset`: an ordered list of named columns.
  A column is either numeric (`dtype` `int64`/`float64`) or non-numeric
  (`object` dtype).  A cell is `Option`-valued; `none` is a missing value
  (`NaN`/`None` in pandas, detected by `df.isnull()`).
* Every IEEE-754 double that is not a NaN denotes a rational number, so
  numeric cell values and the hard-coded thresholds (`0.7`, `0.4`, `0.2`,
  `1000`) are embedded as `ℚ`, with comparisons exact.  A floating NaN is
  embedded as `none`; every ordered comparison against a NaN is false,
  which is encoded by existential propositions over `Option` values.
* The derived statistics `std` and the Pearson coefficient involve square
  roots, so they live in `ℝ` (exact real arithmetic idealises the float
  rounding); everything feeding them (`mean`, sums of squares) stays in
  exact `ℚ`.
-/

namespace Explania

/-- A non-missing cell of a numeric (`int64`/`float64`) or non-numeric
column.  `none` is a missing value (pandas `NaN`). -/
inductive ColData where
  /-- a column with numeric dtype (`int64` or `float64`) -/
  | num (cells : List (Option ℚ))
  /-- a column with any other dtype (`object`, ...) -/
  | obj (cells : List (Option String))
deriving DecidableEq

/-- A `DataFrame`: named columns in their declared order. -/
abbrev Dataset := List (String × ColData)

/-- Number of rows of a column. -/
def ColData.colLen : ColData → ℕ
  | .num cs => cs.length
  | .obj cs => cs.length

/-- `df.isnull()` for one column: the 0/1 missing-value indicators. -/
def ColData.nullIndicators : ColData → List ℕ
  | .num cs => cs.map (fun v => if v.isNone then 1 else 0)
  | .obj cs => cs.map (fun v => if v.isNone then 1 else 0)

/-- `df.isnull().sum()` for one column (app.py lines 58, 76, 156). -/
def nullSum (c : ColData) : ℕ := c.nullIndicators.sum

/-- `df.isnull().sum().to_dict()`: per-column null counts, in the
dataset's declared column order (app.py lines 58 and 156-158). -/
def summarize_nulls (ds : Dataset) : List (String × ℕ) :=
  ds.map (fun p => (p.1, nullSum p.2))

/-- Spec-side reading of "the exact number of missing values in that
column": the count of missing cells. -/
def ColData.missingCount : ColData → ℕ
  | .num cs => cs.countP (fun v => v.isNone)
  | .obj cs => cs.countP (fun v => v.isNone)

/-- `df.shape`: (number of rows, number of columns); 0 rows when there is
no column. -/
def shape (ds : Dataset) : ℕ × ℕ :=
  (((ds.head?).map (fun p => p.2.colLen)).getD 0, ds.length)

/-! ### Session history (app.py lines 44-61) -/

/-- One entry of `st.session_state.history` (app.py lines 54-59). -/
structure Entry where
  filename : String
  shape : ℕ × ℕ
  columns : List String
  nulls : List (String × ℕ)
deriving DecidableEq

/-- The history entry built from an upload (app.py lines 54-59). -/
def mkEntry (name : String) (df : Dataset) : Entry :=
  { filename := name
    shape := shape df
    columns := df.map (fun p => p.1)
    nulls := summarize_nulls df }

/-- app.py lines 53-61: insert the new entry at the front unless the
filename is already present; then `pop()` the last entry if the length
exceeds 5. -/
def updateHistory (h : List Entry) (e : Entry) : List Entry :=
  if e.filename ∈ h.map (fun x => x.filename) then h
  else
    let h1 := e :: h
    if 5 < h1.length then h1.dropLast else h1

/-! ### Report artifact (app.py lines 168-173) -/

/-- Python `str.split('.')` on a list of characters: splits at every dot,
keeping empty pieces, and yields at least one piece. -/
def splitDot : List Char → List (List Char)
  | [] => [[]]
  | c :: cs =>
    if c = '.' then [] :: splitDot cs
    else
      match splitDot cs with
      | [] => [[c]]
      | h :: t => (c :: h) :: t

/-- `f"{uploaded_file.name.split('.')[0]}_report.txt"` (app.py line 171). -/
def report_file_name (name : List Char) : List Char :=
  (splitDot name).headD [] ++ ("_report.txt".toList)

/-- The `st.download_button` arguments that identify the artifact
(app.py lines 168-173). -/
structure DownloadSpec where
  file_name : List Char
  mime : String
deriving DecidableEq

/-- The download artifact offered for an upload named `name`. -/
def download_artifact (name : List Char) : DownloadSpec :=
  { file_name := report_file_name name, mime := "text/plain" }

/-- Spec-side reading of "removing its extension": drop the final dot and
everything after it (no change when there is no dot). -/
def stemOfName (name : List Char) : List Char :=
  if '.' ∈ name then
    (((name.reverse).dropWhile (fun c => ¬(c = '.'))).drop 1).reverse
  else name

/-- The artifact name the claim describes: stem plus `_report.txt`. -/
def spec_report_name (name : List Char) : List Char :=
  stemOfName name ++ ("_report.txt".toList)

/-! ### Per-column statistics (pandas `mean`/`std`, skipna semantics) -/

/-- The non-missing values of a numeric column (pandas skips NaN). -/
def vals (c : List (Option ℚ)) : List ℚ := c.filterMap id

/-- Arithmetic mean of a list of rationals (`0` junk value on `[]`,
guarded by definedness checks below). -/
def mean (l : List ℚ) : ℚ := l.sum / (l.length : ℚ)

/-- Deviations from the mean. -/
def centered (l : List ℚ) : List ℚ := l.map (fun a => a - mean l)

/-- Sum of squares. -/
def sqSum (l : List ℚ) : ℚ := (l.map (fun a => a * a)).sum

/-- Sample variance with `ddof = 1` (the pandas `std` default), as the
exact rational `Σ (xᵢ - x̄)² / (n - 1)`. -/
def sampleVar (l : List ℚ) : ℚ := sqSum (centered l) / ((l.length : ℚ) - 1)

/-- `df[col].mean()`: NaN (`none`) when the column has no non-missing
value. -/
def colMean (c : List (Option ℚ)) : Option ℚ :=
  if (vals c).length = 0 then none else some (mean (vals c))

/-- `df[col].std()`: sample standard deviation; NaN (`none`) when fewer
than 2 non-missing values exist. -/
noncomputable def colStd (c : List (Option ℚ)) : Option ℝ :=
  if (vals c).length < 2 then none
  else some (Real.sqrt ((sampleVar (vals c) : ℚ) : ℝ))

/-! ### Pearson correlation and the scatter-plot caption
(app.py lines 95-105) -/

/-- `Σ (xᵢ - x̄)(yᵢ - ȳ)`: the common numerator/denominator building block
of the Pearson coefficient, in exact rational arithmetic. -/
def covSum (x y : List ℚ) : ℚ :=
  (List.zipWith (fun a b => a * b) (centered x) (centered y)).sum

/-- The Pearson correlation coefficient
`r = Σ dxᵢ dyᵢ / √(Σ dxᵢ² · Σ dyᵢ²)` computed by
`df[[col1, col2]].corr().iloc[0, 1]` (app.py line 95), idealised over ℝ. -/
noncomputable def pearsonR (x y : List ℚ) : ℝ :=
  ((covSum x y : ℚ) : ℝ) / Real.sqrt (((covSum x x * covSum y y : ℚ) : ℝ))

/-- The coefficient pandas reports: NaN (`none`) exactly when a zero
variance (also: fewer than two paired points) makes the quotient `0/0`. -/
noncomputable def corrCoef (x y : List ℚ) : Option ℝ :=
  if covSum x x = 0 ∨ covSum y y = 0 then none else some (pearsonR x y)

/-- `abs(corr) > t` under IEEE semantics: false when `corr` is NaN. -/
def nanAbsGt (c : Option ℝ) (t : ℝ) : Prop := ∃ r, c = some r ∧ t < |r|

/-- `corr > 0` under IEEE semantics: false when `corr` is NaN. -/
def nanPos (c : Option ℝ) : Prop := ∃ r, c = some r ∧ 0 < r

/-- `corr < 0` under IEEE semantics: false when `corr` is NaN. -/
def nanNeg (c : Option ℝ) : Prop := ∃ r, c = some r ∧ r < 0

open Classical in
/-- The strength cascade of app.py lines 96-103. -/
noncomputable def strengthOf (c : Option ℝ) : String :=
  if nanAbsGt c 0.7 then "strong"
  else if nanAbsGt c 0.4 then "moderate"
  else if nanAbsGt c 0.2 then "weak"
  else "very weak or no"

open Classical in
/-- The direction conditional of app.py line 104. -/
noncomputable def directionOf (c : Option ℝ) : String :=
  if nanPos c then "positive" else if nanNeg c then "negative" else "no"

/-- The caption data rendered at app.py line 105. -/
structure Caption where
  coefficient : Option ℝ
  strength : String
  direction : String

/-- The whole auto-caption computation of app.py lines 95-105 for the two
selected numeric columns.  It is total: the source has no failure path. -/
noncomputable def classify_correlation (x y : List ℚ) : Caption :=
  { coefficient := corrCoef x y
    strength := strengthOf (corrCoef x y)
    direction := directionOf (corrCoef x y) }

/-! ### Insights (app.py lines 130-138) -/

/-- One generated insight; the formatted message text is presentation and
is abstracted to the data it interpolates. -/
inductive Insight where
  /-- "Column {col} has a high average value: {mean:.2f}" -/
  | highAvg (col : String) (mean : ℚ)
  /-- "Column {col} has high variability." -/
  | highVar (col : String)
deriving DecidableEq

/-- `mean > 1000` under IEEE semantics: false when `mean` is NaN. -/
def nanGtQ (m : Option ℚ) (t : ℚ) : Prop := ∃ a, m = some a ∧ t < a

/-- `std > mean` under IEEE semantics: false when either is NaN. -/
def nanStdGtMean (s : Option ℝ) (m : Option ℚ) : Prop :=
  ∃ a b, s = some a ∧ m = some b ∧ ((b : ℚ) : ℝ) < a

open Classical in
/-- The body of the loop of app.py lines 131-138 for one column:
`if df[col].dtype in [np.int64, np.float64]`, compute `mean` and `std`
and append the triggered insights. -/
noncomputable def insightsStep (insights : List Insight) (p : String × ColData) :
    List Insight :=
  match p.2 with
  | .obj _ => insights
  | .num c =>
    let insights1 :=
      if nanGtQ (colMean c) 1000 then
        insights ++ [Insight.highAvg p.1 (mean (vals c))]
      else insights
    if nanStdGtMean (colStd c) (colMean c) then
      insights1 ++ [Insight.highVar p.1]
    else insights1

/-- app.py lines 130-138: start from `insights = []` and loop over the
columns in declared order. -/
noncomputable def generate_insights (ds : Dataset) : List Insight :=
  ds.foldl insightsStep []

open Classical in
/-- Spec-side reading of the claim: for a numeric column emit the
high-average insight exactly when the mean over the non-null values
exceeds 1000, and the high-variability insight exactly when the sample
standard deviation exceeds the mean; nothing for other columns. -/
noncomputable def specColInsights (p : String × ColData) : List Insight :=
  match p.2 with
  | .obj _ => []
  | .num c =>
    (if vals c ≠ [] ∧ 1000 < mean (vals c) then
       [Insight.highAvg p.1 (mean (vals c))]
     else []) ++
    (if 2 ≤ (vals c).length ∧
        ((mean (vals c) : ℚ) : ℝ) < Real.sqrt ((sampleVar (vals c) : ℚ) : ℝ) then
       [Insight.highVar p.1]
     else [])

/-! ### The visualization tab (app.py lines 81-124) -/

/-- `df.select_dtypes(include=np.number).columns.tolist()` (line 81). -/
def numeric_cols (ds : Dataset) : List String :=
  ds.filterMap (fun p =>
    match p.2 with
    | .num _ => some p.1
    | .obj _ => none)

/-- What the visualization tab renders. -/
inductive VizOutput where
  /-- the chart-type/axis selectors and one of the charts -/
  | charts (cols : List String)
  /-- `st.warning(...)` (line 124) -/
  | warning (msg : String)
deriving DecidableEq

/-- app.py lines 82-124: charts when at least two numeric columns exist,
otherwise a warning. -/
def visualizations_tab (ds : Dataset) : VizOutput :=
  if 2 ≤ (numeric_cols ds).length then VizOutput.charts (numeric_cols ds)
  else VizOutput.warning "Not enough numeric columns to generate visualizations."

/-- The two data-dependent tab computations of one upload: the
visualization tab (lines 78-124) and the insights tab (lines 126-144),
the latter computed unconditionally. -/
noncomputable def process_upload (ds : Dataset) : VizOutput × List Insight :=
  (visualizations_tab ds, generate_insights ds)

/-! ## Lemmas about the caption classification -/

@[simp]
lemma nanAbsGt_some (r t : ℝ) : nanAbsGt (some r) t ↔ t < |r| := by
  simp [nanAbsGt]

@[simp]
lemma nanAbsGt_none (t : ℝ) : ¬ nanAbsGt none t := by
  simp [nanAbsGt]

@[simp]
lemma nanPos_some (r : ℝ) : nanPos (some r) ↔ 0 < r := by
  simp [nanPos]

@[simp]
lemma nanPos_none : ¬ nanPos none := by
  simp [nanPos]

@[simp]
lemma nanNeg_some (r : ℝ) : nanNeg (some r) ↔ r < 0 := by
  simp [nanNeg]

@[simp]
lemma nanNeg_none : ¬ nanNeg none := by
  simp [nanNeg]

lemma strengthOf_some (r : ℝ) :
    strengthOf (some r) =
      if (0.7:ℝ) < |r| then "strong"
      else if (0.4:ℝ) < |r| then "moderate"
      else if (0.2:ℝ) < |r| then "weak"
      else "very weak or no" := by
  simp [strengthOf]

lemma directionOf_some (r : ℝ) :
    directionOf (some r) =
      if 0 < r then "positive" else if r < 0 then "negative" else "no" := by
  simp [directionOf]

lemma strength_strong_iff (r : ℝ) :
    strengthOf (some r) = "strong" ↔ (0.7:ℝ) < |r| := by
  rw [strengthOf_some]
  split_ifs with h1 h2 h3
  · simp [h1]
  · exact ⟨fun h => absurd h (by decide), fun h => absurd h h1⟩
  · exact ⟨fun h => absurd h (by decide), fun h => absurd h h1⟩
  · exact ⟨fun h => absurd h (by decide), fun h => absurd h h1⟩

lemma strength_moderate_iff (r : ℝ) :
    strengthOf (some r) = "moderate" ↔ (0.4:ℝ) < |r| ∧ |r| ≤ (0.7:ℝ) := by
  rw [strengthOf_some]
  split_ifs with h1 h2 h3
  · exact ⟨fun h => absurd h (by decide), fun h => absurd h1 (by push_neg; exact h.2)⟩
  · exact ⟨fun _ => ⟨h2, le_of_not_lt h1⟩, fun _ => rfl⟩
  · exact ⟨fun h => absurd h (by decide), fun h => absurd h.1 h2⟩
  · exact ⟨fun h => absurd h (by decide), fun h => absurd h.1 h2⟩

lemma strength_weak_iff (r : ℝ) :
    strengthOf (some r) = "weak" ↔ (0.2:ℝ) < |r| ∧ |r| ≤ (0.4:ℝ) := by
  rw [strengthOf_some]
  split_ifs with h1 h2 h3
  · exact ⟨fun h => absurd h (by decide),
      fun h => absurd h1 (by push_neg; linarith [h.2])⟩
  · exact ⟨fun h => absurd h (by decide), fun h => absurd h2 (by push_neg; exact h.2)⟩
  · exact ⟨fun _ => ⟨h3, le_of_not_lt h2⟩, fun _ => rfl⟩
  · exact ⟨fun h => absurd h (by decide), fun h => absurd h.1 h3⟩

lemma strength_veryweak_iff (r : ℝ) :
    strengthOf (some r) = "very weak or no" ↔ |r| ≤ (0.2:ℝ) := by
  rw [strengthOf_some]
  split_ifs with h1 h2 h3
  · exact ⟨fun h => absurd h (by decide), fun h => absurd h1 (by push_neg; linarith)⟩
  · exact ⟨fun h => absurd h (by decide), fun h => absurd h2 (by push_neg; linarith)⟩
  · exact ⟨fun h => absurd h (by decide), fun h => absurd h3 (by push_neg; exact h)⟩
  · exact ⟨fun _ => le_of_not_lt h3, fun _ => rfl⟩

lemma direction_positive_iff (r : ℝ) :
    directionOf (some r) = "positive" ↔ 0 < r := by
  rw [directionOf_some]
  split_ifs with h1 h2
  · simp [h1]
  · exact ⟨fun h => absurd h (by decide), fun h => absurd h h1⟩
  · exact ⟨fun h => absurd h (by decide), fun h => absurd h h1⟩

lemma direction_negative_iff (r : ℝ) :
    directionOf (some r) = "negative" ↔ r < 0 := by
  rw [directionOf_some]
  split_ifs with h1 h2
  · exact ⟨fun h => absurd h (by decide), fun h => absurd (lt_trans h h1) (lt_irrefl r)⟩
  · simp [h2]
  · exact ⟨fun h => absurd h (by decide), fun h => absurd h h2⟩

lemma direction_no_iff (r : ℝ) :
    directionOf (some r) = "no" ↔ r = 0 := by
  rw [directionOf_some]
  split_ifs with h1 h2
  · exact ⟨fun h => absurd h (by decide), fun h => absurd h1 (by rw [h]; exact lt_irrefl 0)⟩
  · exact ⟨fun h => absurd h (by decide), fun h => absurd h2 (by rw [h]; exact lt_irrefl 0)⟩
  · exact ⟨fun _ => le_antisymm (le_of_not_lt h1) (le_of_not_lt h2), fun _ => rfl⟩

/-! ## Claims about the caption (C1, C5, C2) -/

/-- Claim C1: whenever the Pearson coefficient of the two selected numeric
columns is defined (not NaN), the strength label of the caption logic is
"strong" exactly when `|r| > 0.7`, "moderate" exactly when
`0.4 < |r| ≤ 0.7`, "weak" exactly when `0.2 < |r| ≤ 0.4`, and
"very weak or no" exactly when `|r| ≤ 0.2`; in particular `|r| = 0.70`
classifies as "moderate", not "strong". -/
theorem claim_C1 (x y : List ℚ) (r : ℝ)
    (h : (classify_correlation x y).coefficient = some r) :
    (classify_correlation x y).strength = strengthOf (some r) ∧
    (strengthOf (some r) = "strong" ↔ (0.7:ℝ) < |r|) ∧
    (strengthOf (some r) = "moderate" ↔ (0.4:ℝ) < |r| ∧ |r| ≤ (0.7:ℝ)) ∧
    (strengthOf (some r) = "weak" ↔ (0.2:ℝ) < |r| ∧ |r| ≤ (0.4:ℝ)) ∧
    (strengthOf (some r) = "very weak or no" ↔ |r| ≤ (0.2:ℝ)) ∧
    strengthOf (some (0.7:ℝ)) = "moderate" := by
  have hc : corrCoef x y = some r := h
  refine ⟨?_, strength_strong_iff r, strength_moderate_iff r, strength_weak_iff r,
    strength_veryweak_iff r, ?_⟩
  · show strengthOf (corrCoef x y) = strengthOf (some r)
    rw [hc]
  · rw [strength_moderate_iff, abs_of_nonneg (by norm_num : (0:ℝ) ≤ 0.7)]
    norm_num

/-- Witness for C1 at the concrete columns `x = y = [1, 2]`, whose
coefficient is defined. -/
theorem claim_C1_witness :
    (classify_correlation [(1:ℚ), 2] [(1:ℚ), 2]).coefficient
        = some (pearsonR [(1:ℚ), 2] [(1:ℚ), 2]) ∧
    ((classify_correlation [(1:ℚ), 2] [(1:ℚ), 2]).strength
        = strengthOf (some (pearsonR [(1:ℚ), 2] [(1:ℚ), 2])) ∧
     (strengthOf (some (pearsonR [(1:ℚ), 2] [(1:ℚ), 2])) = "strong" ↔
        (0.7:ℝ) < |pearsonR [(1:ℚ), 2] [(1:ℚ), 2]|) ∧
     (strengthOf (some (pearsonR [(1:ℚ), 2] [(1:ℚ), 2])) = "moderate" ↔
        (0.4:ℝ) < |pearsonR [(1:ℚ), 2] [(1:ℚ), 2]| ∧
          |pearsonR [(1:ℚ), 2] [(1:ℚ), 2]| ≤ (0.7:ℝ)) ∧
     (strengthOf (some (pearsonR [(1:ℚ), 2] [(1:ℚ), 2])) = "weak" ↔
        (0.2:ℝ) < |pearsonR [(1:ℚ), 2] [(1:ℚ), 2]| ∧
          |pearsonR [(1:ℚ), 2] [(1:ℚ), 2]| ≤ (0.4:ℝ)) ∧
     (strengthOf (some (pearsonR [(1:ℚ), 2] [(1:ℚ), 2])) = "very weak or no" ↔
        |pearsonR [(1:ℚ), 2] [(1:ℚ), 2]| ≤ (0.2:ℝ)) ∧
     strengthOf (some (0.7:ℝ)) = "moderate") := by
  have h : (classify_correlation [(1:ℚ), 2] [(1:ℚ), 2]).coefficient
      = some (pearsonR [(1:ℚ), 2] [(1:ℚ), 2]) := by
    show corrCoef _ _ = _
    unfold corrCoef
    rw [if_neg (by norm_num [covSum, centered, mean])]
  exact ⟨h, claim_C1 _ _ _ h⟩

/-- Claim C5: whenever the Pearson coefficient of the two selected numeric
columns is defined (not NaN), the direction label is "positive" exactly
when `r > 0`, "negative" exactly when `r < 0`, and "no" exactly when
`r = 0`. -/
theorem claim_C5 (x y : List ℚ) (r : ℝ)
    (h : (classify_correlation x y).coefficient = some r) :
    (classify_correlation x y).direction = directionOf (some r) ∧
    (directionOf (some r) = "positive" ↔ 0 < r) ∧
    (directionOf (some r) = "negative" ↔ r < 0) ∧
    (directionOf (some r) = "no" ↔ r = 0) := by
  have hc : corrCoef x y = some r := h
  refine ⟨?_, direction_positive_iff r, direction_negative_iff r, direction_no_iff r⟩
  show directionOf (corrCoef x y) = directionOf (some r)
  rw [hc]

/-- Witness for C5 at the concrete columns `x = [0, 1]`, `y = [2, 4]`,
whose coefficient is defined. -/
theorem claim_C5_witness :
    (classify_correlation [(0:ℚ), 1] [(2:ℚ), 4]).coefficient
        = some (pearsonR [(0:ℚ), 1] [(2:ℚ), 4]) ∧
    ((classify_correlation [(0:ℚ), 1] [(2:ℚ), 4]).direction
        = directionOf (some (pearsonR [(0:ℚ), 1] [(2:ℚ), 4])) ∧
     (directionOf (some (pearsonR [(0:ℚ), 1] [(2:ℚ), 4])) = "positive" ↔
        0 < pearsonR [(0:ℚ), 1] [(2:ℚ), 4]) ∧
     (directionOf (some (pearsonR [(0:ℚ), 1] [(2:ℚ), 4])) = "negative" ↔
        pearsonR [(0:ℚ), 1] [(2:ℚ), 4] < 0) ∧
     (directionOf (some (pearsonR [(0:ℚ), 1] [(2:ℚ), 4])) = "no" ↔
        pearsonR [(0:ℚ), 1] [(2:ℚ), 4] = 0)) := by
  have h : (classify_correlation [(0:ℚ), 1] [(2:ℚ), 4]).coefficient
      = some (pearsonR [(0:ℚ), 1] [(2:ℚ), 4]) := by
    show corrCoef _ _ = _
    unfold corrCoef
    rw [if_neg (by norm_num [covSum, centered, mean])]
  exact ⟨h, claim_C5 _ _ _ h⟩

/-- Counterexample to claim C2: on the degenerate input
`x = [1,2,3,4]`, `y = [5,5,5,5]` (zero variance in `y`), the code does
not fail with any error — pandas yields a NaN coefficient, every
comparison against the NaN is false, and the caption logic still
produces a caption, with strength "very weak or no" and direction
"no". -/
theorem claim_C2_cex :
    classify_correlation [(1:ℚ), 2, 3, 4] [(5:ℚ), 5, 5, 5] =
      { coefficient := none, strength := "very weak or no", direction := "no" } := by
  have h : covSum [(5:ℚ), 5, 5, 5] [(5:ℚ), 5, 5, 5] = 0 := by
    norm_num [covSum, centered, mean]
  simp [classify_correlation, corrCoef, h, strengthOf, directionOf]

/-- Claim C2 as amended: `classify_correlation` never fails.  Whenever the
coefficient is undefined (zero variance in either column, which subsumes
fewer than 2 paired observations), the produced caption has an undefined
(NaN) coefficient, strength "very weak or no" and direction "no". -/
theorem claim_C2 (x y : List ℚ) (h : covSum x x = 0 ∨ covSum y y = 0) :
    classify_correlation x y =
      { coefficient := none, strength := "very weak or no", direction := "no" } := by
  simp [classify_correlation, corrCoef, if_pos h, strengthOf, directionOf]

/-- Witness for the amended C2 at `x = [1, 2]`, `y = []`. -/
theorem claim_C2_witness :
    covSum ([] : List ℚ) ([] : List ℚ) = 0 ∧
    classify_correlation [(1:ℚ), 2] [] =
      { coefficient := none, strength := "very weak or no", direction := "no" } :=
  ⟨rfl, claim_C2 _ _ (Or.inr rfl)⟩

/-! ## Lemmas about null counting (C6) -/

lemma sum_indicator_eq_countP {α : Type} (p : α → Bool) (l : List α) :
    (l.map (fun v => if p v then (1:ℕ) else 0)).sum = l.countP p := by
  induction l with
  | nil => simp
  | cons a t ih =>
    by_cases h : p a
    · simp [h, ih, List.countP_cons]
      omega
    · simp [h, ih, List.countP_cons]

lemma nullSum_eq_missingCount (c : ColData) : nullSum c = c.missingCount := by
  cases c with
  | num cs => exact sum_indicator_eq_countP (fun v => v.isNone) cs
  | obj cs => exact sum_indicator_eq_countP (fun v => v.isNone) cs

/-- Claim C6: `summarize_nulls` maps every column name to the exact number
of missing values in that column (0 when fully populated), in the
dataset's declared column order. -/
theorem claim_C6 : ∀ ds : Dataset,
    summarize_nulls ds = ds.map (fun p => (p.1, p.2.missingCount)) := by
  intro ds
  simp only [summarize_nulls, nullSum_eq_missingCount]

/-! ## Lemmas about the insights loop (C3, C7) -/

lemma nanGtQ_colMean (c : List (Option ℚ)) (t : ℚ) :
    nanGtQ (colMean c) t ↔ vals c ≠ [] ∧ t < mean (vals c) := by
  unfold colMean nanGtQ
  split_ifs with h
  · simp [List.length_eq_zero.mp h]
  · have hne : vals c ≠ [] := fun e => h (by rw [e]; rfl)
    simp [hne]

lemma nanStdGtMean_iff (c : List (Option ℚ)) :
    nanStdGtMean (colStd c) (colMean c) ↔
      2 ≤ (vals c).length ∧
        ((mean (vals c) : ℚ) : ℝ) < Real.sqrt ((sampleVar (vals c) : ℚ) : ℝ) := by
  unfold colStd colMean nanStdGtMean
  rcases Nat.lt_or_ge (vals c).length 2 with h1 | h1
  · rw [if_pos h1]
    constructor
    · rintro ⟨a, b, ha, -, -⟩
      cases ha
    · rintro ⟨hh, -⟩
      omega
  · rw [if_neg (by omega), if_neg (by omega)]
    constructor
    · rintro ⟨a, b, ha, hb, hab⟩
      have ha' := Option.some.inj ha
      have hb' := Option.some.inj hb
      subst ha'
      subst hb'
      exact ⟨by omega, hab⟩
    · rintro ⟨-, hlt⟩
      exact ⟨_, _, rfl, rfl, hlt⟩

lemma insightsStep_eq (acc : List Insight) (p : String × ColData) :
    insightsStep acc p = acc ++ specColInsights p := by
  obtain ⟨n, c⟩ := p
  cases c with
  | obj cs => simp [insightsStep, specColInsights]
  | num cs =>
    simp only [insightsStep, specColInsights]
    by_cases hA : vals cs ≠ [] ∧ 1000 < mean (vals cs) <;>
      by_cases hB : 2 ≤ (vals cs).length ∧
        ((mean (vals cs) : ℚ) : ℝ) < Real.sqrt ((sampleVar (vals cs) : ℚ) : ℝ)
    · rw [if_pos ((nanGtQ_colMean cs 1000).mpr hA), if_pos hA,
        if_pos ((nanStdGtMean_iff cs).mpr hB), if_pos hB, List.append_assoc]
    · rw [if_pos ((nanGtQ_colMean cs 1000).mpr hA), if_pos hA,
        if_neg (fun hx => hB ((nanStdGtMean_iff cs).mp hx)), if_neg hB,
        List.append_nil]
    · rw [if_neg (fun hx => hA ((nanGtQ_colMean cs 1000).mp hx)), if_neg hA,
        if_pos ((nanStdGtMean_iff cs).mpr hB), if_pos hB, List.nil_append]
    · rw [if_neg (fun hx => hA ((nanGtQ_colMean cs 1000).mp hx)), if_neg hA,
        if_neg (fun hx => hB ((nanStdGtMean_iff cs).mp hx)), if_neg hB,
        List.append_nil, List.append_nil]

lemma foldl_insightsStep (ds : Dataset) :
    ∀ init : List Insight,
      ds.foldl insightsStep init = init ++ ds.flatMap specColInsights := by
  induction ds with
  | nil => intro init; simp
  | cons p t ih =>
    intro init
    simp only [List.foldl_cons, List.flatMap_cons, insightsStep_eq, ih,
      List.append_assoc]

lemma generate_insights_eq (ds : Dataset) :
    generate_insights ds = ds.flatMap specColInsights := by
  unfold generate_insights
  rw [foldl_insightsStep]
  simp

/-- Claim C3: the insight loop visits the numeric columns in the
dataset's declared column order, emitting for each one the high-average
insight exactly when the mean over the non-null values exceeds 1000 and
the high-variability insight exactly when the sample standard deviation
exceeds the mean; non-numeric columns contribute nothing, so an
all-non-numeric dataset yields the empty sequence. -/
theorem claim_C3 :
    (∀ ds : Dataset, generate_insights ds = ds.flatMap specColInsights) ∧
    generate_insights
      [("name", ColData.obj [some "a"]), ("tag", ColData.obj [none])] = [] := by
  refine ⟨generate_insights_eq, ?_⟩
  rw [generate_insights_eq]
  simp [specColInsights]

/-- Claim C7: with fewer than two numeric columns, the visualization tab
renders only the warning (no chart), while the insights tab still runs
the insight loop over the dataset and produces its normal result. -/
theorem claim_C7 (ds : Dataset) (h : (numeric_cols ds).length < 2) :
    process_upload ds =
      (VizOutput.warning "Not enough numeric columns to generate visualizations.",
       generate_insights ds) ∧
    generate_insights ds = ds.flatMap specColInsights := by
  constructor
  · unfold process_upload visualizations_tab
    rw [if_neg (by omega)]
  · exact generate_insights_eq ds

/-- Witness for C7: one numeric column (mean 2100 > 1000) and one
non-numeric column. -/
theorem claim_C7_witness :
    (numeric_cols [("revenue", ColData.num [some 2000, some 2200, some 2100]),
        ("label", ColData.obj [some "a"])]).length < 2 ∧
    (process_upload [("revenue", ColData.num [some 2000, some 2200, some 2100]),
        ("label", ColData.obj [some "a"])] =
      (VizOutput.warning "Not enough numeric columns to generate visualizations.",
       generate_insights [("revenue", ColData.num [some 2000, some 2200, some 2100]),
        ("label", ColData.obj [some "a"])]) ∧
     generate_insights [("revenue", ColData.num [some 2000, some 2200, some 2100]),
        ("label", ColData.obj [some "a"])] =
       ([("revenue", ColData.num [some 2000, some 2200, some 2100]),
        ("label", ColData.obj [some "a"])] : Dataset).flatMap specColInsights) :=
  ⟨by decide, claim_C7 _ (by decide)⟩

/-! ## Lemmas about the Pearson coefficient (C4) -/

lemma zip_sq_sum_nonneg (a : List ℚ) :
    0 ≤ (List.zipWith (fun x y => x * y) a a).sum := by
  induction a with
  | nil => simp
  | cons p t ih =>
    simp only [List.zipWith_cons_cons, List.sum_cons]
    exact add_nonneg (mul_self_nonneg p) ih

lemma cauchy_schwarz_list : ∀ a b : List ℚ,
    ((List.zipWith (fun x y => x * y) a b).sum) ^ 2 ≤
      (List.zipWith (fun x y => x * y) a a).sum *
        (List.zipWith (fun x y => x * y) b b).sum := by
  intro a
  induction a with
  | nil => intro b; simp
  | cons p t ih =>
    intro b
    cases b with
    | nil => simp
    | cons q s =>
      simp only [List.zipWith_cons_cons, List.sum_cons]
      set S := (List.zipWith (fun x y => x * y) t s).sum with hSdef
      set A := (List.zipWith (fun x y => x * y) t t).sum with hAdef
      set B := (List.zipWith (fun x y => x * y) s s).sum with hBdef
      have hIH : S ^ 2 ≤ A * B := ih s
      have hA : 0 ≤ A := zip_sq_sum_nonneg t
      have hB : 0 ≤ B := zip_sq_sum_nonneg s
      rcases eq_or_lt_of_le hA with hA0 | hA0
      · have hS0 : S = 0 := by nlinarith [sq_nonneg S]
        rw [hS0]
        nlinarith [mul_nonneg (mul_self_nonneg p) hB, mul_self_nonneg q]
      · nlinarith [sq_nonneg (p * S - q * A),
          mul_nonneg (add_nonneg (mul_self_nonneg p) hA) (sub_nonneg.mpr hIH), hA0]

lemma covSum_comm (x y : List ℚ) : covSum x y = covSum y x := by
  unfold covSum
  rw [List.zipWith_comm_of_comm (fun a b => a * b) mul_comm]

lemma covSum_cs (x y : List ℚ) :
    (covSum x y) ^ 2 ≤ covSum x x * covSum y y :=
  cauchy_schwarz_list (centered x) (centered y)

lemma pearsonR_comm (x y : List ℚ) : pearsonR x y = pearsonR y x := by
  unfold pearsonR
  rw [covSum_comm x y, mul_comm (covSum x x) (covSum y y)]

/-- Claim C4: for equal-length numeric sequences with positive variance,
the coefficient of `classify_correlation` is symmetric under swapping the
two columns, and it lies in the closed interval `[-1, 1]`
(Cauchy-Schwarz). -/
theorem claim_C4 (x y : List ℚ) (hx : 0 < covSum x x) (hy : 0 < covSum y y)
    (_hlen : x.length = y.length) :
    (classify_correlation x y).coefficient = (classify_correlation y x).coefficient ∧
    (classify_correlation x y).coefficient = some (pearsonR x y) ∧
    -1 ≤ pearsonR x y ∧ pearsonR x y ≤ 1 := by
  have hcx : corrCoef x y = some (pearsonR x y) := by
    unfold corrCoef
    rw [if_neg]
    rintro (h | h)
    · exact absurd h (ne_of_gt hx)
    · exact absurd h (ne_of_gt hy)
  have hcy : corrCoef y x = some (pearsonR y x) := by
    unfold corrCoef
    rw [if_neg]
    rintro (h | h)
    · exact absurd h (ne_of_gt hy)
    · exact absurd h (ne_of_gt hx)
  have hD : (0:ℝ) < ((covSum x x * covSum y y : ℚ) : ℝ) := by
    have : (0:ℚ) < covSum x x * covSum y y := mul_pos hx hy
    exact_mod_cast this
  have hsq : (0:ℝ) < Real.sqrt ((covSum x x * covSum y y : ℚ) : ℝ) :=
    Real.sqrt_pos.mpr hD
  have hcs : (((covSum x y : ℚ) : ℝ)) ^ 2 ≤ ((covSum x x * covSum y y : ℚ) : ℝ) := by
    exact_mod_cast covSum_cs x y
  have habs : |pearsonR x y| ≤ 1 := by
    unfold pearsonR
    rw [abs_div, abs_of_pos hsq, div_le_one hsq]
    rw [← sq_abs] at hcs
    exact (Real.le_sqrt (abs_nonneg _) (le_of_lt hD)).mpr hcs
  refine ⟨?_, hcx, (abs_le.mp habs).1, (abs_le.mp habs).2⟩
  show corrCoef x y = corrCoef y x
  rw [hcx, hcy, pearsonR_comm]

/-- Witness for C4 at `x = y = [1, 2]` (variance `1/2 > 0`). -/
theorem claim_C4_witness :
    (0:ℚ) < covSum [(1:ℚ), 2] [(1:ℚ), 2] ∧
    ((classify_correlation [(1:ℚ), 2] [(1:ℚ), 2]).coefficient
        = (classify_correlation [(1:ℚ), 2] [(1:ℚ), 2]).coefficient ∧
     (classify_correlation [(1:ℚ), 2] [(1:ℚ), 2]).coefficient
        = some (pearsonR [(1:ℚ), 2] [(1:ℚ), 2]) ∧
     -1 ≤ pearsonR [(1:ℚ), 2] [(1:ℚ), 2] ∧ pearsonR [(1:ℚ), 2] [(1:ℚ), 2] ≤ 1) :=
  ⟨by norm_num [covSum, centered, mean],
   claim_C4 _ _ (by norm_num [covSum, centered, mean])
     (by norm_num [covSum, centered, mean]) rfl⟩

/-! ## Claims about the session history (C8, C10) -/

/-- Counterexample to claim C8 as stated: an upload whose filename is
already in the history does not insert a new entry at the front — the
history is left unchanged, even though the file's contents (shape,
columns, nulls) differ. -/
theorem claim_C8_cex :
    updateHistory [Entry.mk "a.csv" (4, 1) ["x"] [("x", 0)]]
        (Entry.mk "a.csv" (2, 2) ["x", "y"] [("x", 1), ("y", 0)]) =
      [Entry.mk "a.csv" (4, 1) ["x"] [("x", 0)]] ∧
    (updateHistory [Entry.mk "a.csv" (4, 1) ["x"] [("x", 0)]]
        (Entry.mk "a.csv" (2, 2) ["x", "y"] [("x", 1), ("y", 0)])).head? ≠
      some (Entry.mk "a.csv" (2, 2) ["x", "y"] [("x", 1), ("y", 0)]) := by
  decide

/-- Claim C8 as amended: after an upload whose filename is not already in
the history, the new entry is at the front and only the 4 most recent
previous entries are kept, so the bounded (≤ 5, most-recent-first) shape
is preserved; duplicate-filename uploads leave the history unchanged
(claim C10). -/
theorem claim_C8 (h : List Entry) (e : Entry) (hlen : h.length ≤ 5)
    (hnew : e.filename ∉ h.map (fun x => x.filename)) :
    updateHistory h e = e :: h.take 4 ∧ (updateHistory h e).length ≤ 5 := by
  unfold updateHistory
  rw [if_neg hnew]
  by_cases h5 : 5 < (e :: h).length
  · rw [if_pos h5]
    have hlen5 : h.length = 5 := by
      simp only [List.length_cons] at h5
      omega
    constructor
    · rw [List.dropLast_eq_take, List.length_cons, hlen5,
        show (5 + 1 - 1 : ℕ) = 4 + 1 from rfl, List.take_succ_cons]
    · rw [List.length_dropLast, List.length_cons, hlen5]
  · rw [if_neg h5]
    have hle4 : h.length ≤ 4 := by
      simp only [List.length_cons] at h5
      omega
    constructor
    · rw [List.take_of_length_le hle4]
    · simp only [List.length_cons]
      omega

/-- Witness for the amended C8: a full 5-entry history plus a fresh
filename. -/
theorem claim_C8_witness :
    ([Entry.mk "a" (1, 1) ["c"] [("c", 0)], Entry.mk "b" (1, 1) ["c"] [("c", 0)],
      Entry.mk "c" (1, 1) ["c"] [("c", 0)], Entry.mk "d" (1, 1) ["c"] [("c", 0)],
      Entry.mk "e" (1, 1) ["c"] [("c", 0)]] : List Entry).length ≤ 5 ∧
    (Entry.mk "f" (2, 1) ["z"] [("z", 1)]).filename ∉
      ([Entry.mk "a" (1, 1) ["c"] [("c", 0)], Entry.mk "b" (1, 1) ["c"] [("c", 0)],
        Entry.mk "c" (1, 1) ["c"] [("c", 0)], Entry.mk "d" (1, 1) ["c"] [("c", 0)],
        Entry.mk "e" (1, 1) ["c"] [("c", 0)]].map (fun x => x.filename)) ∧
    (updateHistory
        [Entry.mk "a" (1, 1) ["c"] [("c", 0)], Entry.mk "b" (1, 1) ["c"] [("c", 0)],
         Entry.mk "c" (1, 1) ["c"] [("c", 0)], Entry.mk "d" (1, 1) ["c"] [("c", 0)],
         Entry.mk "e" (1, 1) ["c"] [("c", 0)]]
        (Entry.mk "f" (2, 1) ["z"] [("z", 1)]) =
      Entry.mk "f" (2, 1) ["z"] [("z", 1)] ::
        [Entry.mk "a" (1, 1) ["c"] [("c", 0)], Entry.mk "b" (1, 1) ["c"] [("c", 0)],
         Entry.mk "c" (1, 1) ["c"] [("c", 0)], Entry.mk "d" (1, 1) ["c"] [("c", 0)],
         Entry.mk "e" (1, 1) ["c"] [("c", 0)]].take 4 ∧
     (updateHistory
        [Entry.mk "a" (1, 1) ["c"] [("c", 0)], Entry.mk "b" (1, 1) ["c"] [("c", 0)],
         Entry.mk "c" (1, 1) ["c"] [("c", 0)], Entry.mk "d" (1, 1) ["c"] [("c", 0)],
         Entry.mk "e" (1, 1) ["c"] [("c", 0)]]
        (Entry.mk "f" (2, 1) ["z"] [("z", 1)])).length ≤ 5) :=
  ⟨by decide, by decide, claim_C8 _ _ (by decide) (by decide)⟩

/-- Claim C10: an upload whose filename already appears in the history
leaves the history list completely unchanged. -/
theorem claim_C10 (h : List Entry) (e : Entry)
    (hdup : e.filename ∈ h.map (fun x => x.filename)) :
    updateHistory h e = h := by
  unfold updateHistory
  rw [if_pos hdup]

/-- Witness for C10: re-uploading `data.csv` with different contents. -/
theorem claim_C10_witness :
    (Entry.mk "data.csv" (10, 1) ["z"] [("z", 5)]).filename ∈
      ([Entry.mk "data.csv" (3, 2) ["a", "b"] [("a", 1), ("b", 0)]].map
        (fun x => x.filename)) ∧
    updateHistory [Entry.mk "data.csv" (3, 2) ["a", "b"] [("a", 1), ("b", 0)]]
        (Entry.mk "data.csv" (10, 1) ["z"] [("z", 5)]) =
      [Entry.mk "data.csv" (3, 2) ["a", "b"] [("a", 1), ("b", 0)]] :=
  ⟨by decide, claim_C10 _ _ (by decide)⟩

/-! ## Claims about the report artifact (C9) -/

lemma splitDot_ne_nil (l : List Char) : splitDot l ≠ [] := by
  induction l with
  | nil => simp [splitDot]
  | cons c cs ih =>
    by_cases hc : c = '.'
    · simp [splitDot, hc]
    · simp only [splitDot, if_neg hc]
      cases hsplit : splitDot cs with
      | nil => simp
      | cons hh tt => simp

lemma splitDot_headD (l : List Char) :
    (splitDot l).headD [] = l.takeWhile (fun c => c != '.') := by
  induction l with
  | nil => rfl
  | cons c cs ih =>
    by_cases hc : c = '.'
    · subst hc
      simp [splitDot, List.takeWhile_cons]
    · simp only [splitDot, if_neg hc]
      obtain ⟨hh, tt, heq⟩ := List.exists_cons_of_ne_nil (splitDot_ne_nil cs)
      rw [heq]
      simp only [List.headD_cons]
      have hh_eq : hh = cs.takeWhile (fun c => c != '.') := by
        rw [← ih, heq, List.headD_cons]
      rw [hh_eq, List.takeWhile_cons, if_pos (by simp [hc])]

/-- Counterexample to claim C9 as stated: for the multi-dot filename
`data.v2.csv`, the code's `split('.')[0]` keeps only the part before the
FIRST dot, producing `data_report.txt`, while removing the extension
would produce `data.v2_report.txt`. -/
theorem claim_C9_cex :
    download_artifact ("data.v2.csv".toList) =
      { file_name := "data_report.txt".toList, mime := "text/plain" } ∧
    spec_report_name ("data.v2.csv".toList) = "data.v2_report.txt".toList ∧
    download_artifact ("data.v2.csv".toList) ≠
      { file_name := spec_report_name ("data.v2.csv".toList),
        mime := "text/plain" } := by
  decide

/-- Claim C9 as amended: the artifact is named by the part of the
filename before the FIRST dot (not by removing the extension) followed by
`_report.txt`, and is served with media type `text/plain`.  For filenames
with at most one dot this agrees with removing the extension. -/
theorem claim_C9 : ∀ name : List Char,
    download_artifact name =
      { file_name := name.takeWhile (fun c => c != '.') ++ ("_report.txt".toList),
        mime := "text/plain" } := by
  intro name
  unfold download_artifact report_file_name
  rw [splitDot_headD]

end Explania
